import Mathlib

/-!
A shallow embedding of the core simulation logic of the `rpi-gb-dungeon`
game (single source file `game.py`): the animation player, the Player,
Enemy and Pickup state machines, the level loader with its collision
grid and load pipeline, and the game-state manager transition guard.
Wall-clock time is modelled as a rational number of seconds that each
operation receives explicitly (the source reads `time.time()`); all
other data is translated field by field from the source.  Rendering,
audio and file decoding are external collaborators: drawing is modelled
as the list of blit commands issued, and asset decoding as a boolean
availability oracle threaded through the level-load pipeline.
-/

/-- `TILE_SIZE = 16` from the source constants. -/
def TILE_SIZE : Int := 16

/-- `MOVEMENT_COOLDOWN = 0.15` from the source constants. -/
def MOVEMENT_COOLDOWN : ℚ := 0.15

/-- One entry of an animation table: an ordered list of `(row, col)`
spritesheet coordinates, a per-clip frame duration in seconds, and a
loop flag (the `"frames"` / `"duration"` / `"loop"` dictionary values
of the source animation definitions). -/
structure AnimClip where
  frames : List (Nat × Nat)
  duration : ℚ
  loop : Bool
deriving DecidableEq

/-- State of `AnimationManager` (`game.py` lines 352-431): the clip
table, the optional current clip name, the frame index, the timestamp
of the last frame advance, and the finished and paused flags.  The
spritesheet path and grid tile size are carried along as plain data;
the decoded image and the per-frame surface cache are presentation
state with no effect on the logic modelled here. -/
structure AnimationManager where
  spritesheet : String
  tile_size : Nat
  animations : List (String × AnimClip)
  current_anim : Option String
  frame_idx : Nat
  last_update : ℚ
  finished : Bool
  paused : Bool
deriving DecidableEq

/-- `AnimationManager.__init__`: no current clip, frame index 0,
`last_update = 0`, not finished, not paused. -/
def AnimationManager.init (spritesheet_path : String) (tile_size : Nat)
    (animations : List (String × AnimClip)) : AnimationManager :=
  { spritesheet := spritesheet_path
    tile_size := tile_size
    animations := animations
    current_anim := none
    frame_idx := 0
    last_update := 0
    finished := false
    paused := false }

/-- `AnimationManager.play(anim_name, reset)`: unknown names are
ignored; a different clip, or `reset = true`, restarts the clip from
frame 0 at time `now`; replaying the current clip with `reset = false`
is a no-op. -/
def AnimationManager.play (m : AnimationManager) (anim_name : String)
    (reset : Bool) (now : ℚ) : AnimationManager :=
  if (m.animations.lookup anim_name).isNone then m
  else if m.current_anim ≠ some anim_name ∨ reset = true then
    { m with current_anim := some anim_name, frame_idx := 0,
             last_update := now, finished := false }
  else m

/-- `AnimationManager.set_paused(paused)`. -/
def AnimationManager.set_paused (m : AnimationManager) (paused : Bool) :
    AnimationManager :=
  { m with paused := paused }

/-- `AnimationManager.update()` (lines 403-420): a no-op without an
active clip or when finished or paused; otherwise, when at least one
frame duration has elapsed since `last_update`, the frame index is
incremented once and the timer is reset to `now` (the excess elapsed
time is discarded); overflow past the last frame wraps to 0 for a
looping clip and clamps to the last index, setting `finished`, for a
non-looping one. -/
def AnimationManager.update (m : AnimationManager) (now : ℚ) :
    AnimationManager :=
  match m.current_anim with
  | none => m
  | some name =>
    if m.finished = true ∨ m.paused = true then m
    else
      match m.animations.lookup name with
      | none => m
      | some anim =>
        if now - m.last_update ≥ anim.duration then
          let idx := m.frame_idx + 1
          if idx ≥ anim.frames.length then
            if anim.loop then
              { m with frame_idx := 0, last_update := now }
            else
              { m with frame_idx := anim.frames.length - 1,
                       last_update := now, finished := true }
          else { m with frame_idx := idx, last_update := now }
        else m

/-- `AnimationManager.get_frame()`: the `(row, col)` coordinates of the
current frame, with the index clamped to the last frame of the clip. -/
def AnimationManager.get_frame (m : AnimationManager) :
    Option (Nat × Nat) :=
  match m.current_anim with
  | none => none
  | some name =>
    match m.animations.lookup name with
    | none => none
    | some anim => anim.frames[min m.frame_idx (anim.frames.length - 1)]?

/-- `Player.ANIMATIONS` (class-level animation definitions). -/
def Player.ANIMATIONS : List (String × AnimClip) :=
  [("idle_right", ⟨[(0, 0), (0, 1), (0, 2)], 0.6, true⟩),
   ("idle_left", ⟨[(1, 0), (1, 1), (1, 2)], 0.6, true⟩),
   ("walk_right", ⟨[(2, 0), (2, 1), (2, 2), (2, 3)], 0.6, true⟩),
   ("walk_left", ⟨[(3, 0), (3, 1), (3, 2), (3, 3)], 0.6, true⟩),
   ("hurt_right", ⟨[(4, 1), (4, 2), (4, 3), (4, 4), (4, 5)], 0.6, false⟩),
   ("hurt_left", ⟨[(5, 1), (5, 2), (5, 3), (5, 4), (5, 5)], 0.6, false⟩),
   ("die_right", ⟨[(6, 1), (6, 2), (6, 3)], 0.6, false⟩),
   ("die_left", ⟨[(7, 1), (7, 2), (7, 3)], 0.6, false⟩)]

/-- `Player.SWORD_ANIMATIONS` (class-level sword animation definitions). -/
def Player.SWORD_ANIMATIONS : List (String × AnimClip) :=
  [("attack_left", ⟨[(0, 0), (0, 1), (0, 2), (0, 3), (0, 4)], 0.1, false⟩),
   ("attack_right", ⟨[(2, 0), (2, 1), (2, 2), (2, 3), (2, 4)], 0.1, false⟩)]

/-- Player state (`game.py` lines 496-521): grid-snapped position,
facing, movement cooldown timestamp, health, state tag with its entry
timestamp, remaining invincibility, and the body and sword animation
players. -/
structure Player where
  x : Int
  y : Int
  facing : String
  last_move : ℚ
  health : Int
  max_health : Int
  state : String
  state_timer : ℚ
  invincible_timer : ℚ
  anim : AnimationManager
  sword_anim : AnimationManager
deriving DecidableEq

/-- `Player.__init__(x, y)`: position snapped to the tile grid via
floor division, facing right, full health, idle, with the body
animation started on `idle_right` at construction time `now`. -/
def Player.init (x y : Int) (now : ℚ) : Player :=
  { x := (Int.fdiv x TILE_SIZE) * TILE_SIZE
    y := (Int.fdiv y TILE_SIZE) * TILE_SIZE
    facing := "right"
    last_move := 0
    health := 3
    max_health := 3
    state := "idle"
    state_timer := 0
    invincible_timer := 0
    anim := (AnimationManager.init "images/player.png" 16
        Player.ANIMATIONS).play "idle_right" true now
    sword_anim := AnimationManager.init "images/weapons_animated.png" 48
        Player.SWORD_ANIMATIONS }

/-- `Player._can_move(current_time)`. -/
def Player.can_move (p : Player) (current_time : ℚ) : Prop :=
  current_time - p.last_move ≥ MOVEMENT_COOLDOWN

instance (p : Player) (t : ℚ) : Decidable (p.can_move t) := by
  unfold Player.can_move; infer_instance

/-- `Player.move(dx, dy, level_width, level_height, current_time)`
(lines 571-597): rejected while attacking, hurt or dying or before the
0.15 s cooldown has elapsed; otherwise facing is set from the sign of
`dx`, then the one-tile step is applied only if the destination stays
inside `[0, level_dim - TILE_SIZE]` on both axes; the boolean reports
whether the step was applied. -/
def Player.move (p : Player) (dx dy : Int) (level_width level_height : Int)
    (current_time : ℚ) : Bool × Player :=
  if p.state ∈ ["attacking", "hurt", "dying"] ∨ ¬ p.can_move current_time then
    (false, p)
  else
    let p := if dx > 0 then { p with facing := "right" }
             else if dx < 0 then { p with facing := "left" }
             else p
    let new_x := p.x + dx * TILE_SIZE
    let new_y := p.y + dy * TILE_SIZE
    if 0 ≤ new_x ∧ new_x ≤ level_width - TILE_SIZE ∧
       0 ≤ new_y ∧ new_y ≤ level_height - TILE_SIZE then
      (true, { p with x := new_x, y := new_y, last_move := current_time,
                      state := "moving" })
    else (false, p)

/-- `Player.start_attack()`: rejected while attacking, hurt or dying;
otherwise enters `attacking`, stamps the state timer, and restarts the
sword clip for the current facing (the attack sound is an external
side effect). -/
def Player.start_attack (p : Player) (now : ℚ) : Bool × Player :=
  if p.state ∈ ["attacking", "hurt", "dying"] then (false, p)
  else
    (true, { p with state := "attacking", state_timer := now,
                    sword_anim := p.sword_anim.play
                        ("attack_" ++ p.facing) true now })

/-- `Player._start_hurt()`: enter `hurt`, stamp the timer, grant 1.8 s
of invincibility and restart the hurt clip (hit sound external). -/
def Player.start_hurt (p : Player) (now : ℚ) : Player :=
  { p with state := "hurt", state_timer := now, invincible_timer := 1.8,
           anim := p.anim.play ("hurt_" ++ p.facing) true now }

/-- `Player._start_death()`: enter `dying`, stamp the timer and restart
the death clip (music stop and game-over sound external). -/
def Player.start_death (p : Player) (now : ℚ) : Player :=
  { p with state := "dying", state_timer := now,
           anim := p.anim.play ("die_" ++ p.facing) true now }

/-- `Player.take_damage(damage)` (lines 613-623): rejected while
invincible or already hurt or dying; otherwise health drops by
`damage` and the player enters `dying` when the result is ≤ 0, else
`hurt`. -/
def Player.take_damage (p : Player) (damage : Int) (now : ℚ) :
    Bool × Player :=
  if p.invincible_timer > 0 ∨ p.state ∈ ["hurt", "dying"] then (false, p)
  else
    let p := { p with health := p.health - damage }
    if p.health ≤ 0 then (true, p.start_death now)
    else (true, p.start_hurt now)

/-- Truncation of a rational toward zero, the behavior of Python
`int()` on a float (used by the flashing-effect parity checks). -/
def pyint (q : ℚ) : Int := q.num / q.den

/-- A sprite kind tag for recorded player blit commands. -/
inductive Sprite
  | body
  | sword
deriving DecidableEq

/-- `Player.draw(screen, camera_x, camera_y)` (lines 649-674), as the
list of issued blit commands.  While invincible and neither hurt nor
dying, the whole draw is skipped on odd 0.1 s wall-clock windows; the
body frame is blitted at the screen position; the sword frame is
blitted only in the `attacking` state, at the screen position offset
by (-16, -16). -/
def Player.draw (p : Player) (now : ℚ) (camera_x camera_y : Int) :
    List (Sprite × Int × Int) :=
  let screen_x := p.x - camera_x
  let screen_y := p.y - camera_y
  if p.invincible_timer > 0 ∧ p.state ∉ ["hurt", "dying"] ∧
     pyint (now * 10) % 2 ≠ 0 then []
  else
    (match p.anim.get_frame with
     | some _ => [(Sprite.body, screen_x, screen_y)]
     | none => []) ++
    (if p.state = "attacking" ∧ p.state ≠ "dying" then
       match p.sword_anim.get_frame with
       | some _ => [(Sprite.sword, screen_x - 16, screen_y - 16)]
       | none => []
     else [])

/-- `Enemy.ANIMATIONS` (class-level animation definitions). -/
def Enemy.ANIMATIONS : List (String × AnimClip) :=
  [("idle_right", ⟨[(0, 0), (0, 1)], 0.6, true⟩),
   ("idle_left", ⟨[(1, 0), (1, 1)], 0.6, true⟩),
   ("walk_right", ⟨[(2, 0), (2, 1), (2, 2)], 0.4, true⟩),
   ("walk_left", ⟨[(3, 0), (3, 1), (3, 2)], 0.4, true⟩),
   ("hurt_right", ⟨[(4, 0), (4, 1), (4, 2), (4, 3)], 0.2, false⟩),
   ("hurt_left", ⟨[(5, 0), (5, 1), (5, 2), (5, 3)], 0.2, false⟩)]

/-- Enemy state (`game.py` lines 716-741): grid-snapped position and
remembered start position, facing, movement axis, patrol leg length in
tiles with the per-leg step counter, the 0.3 s movement cooldown with
its timestamp, the state tag with its entry timestamp, and the
animation player. -/
structure Enemy where
  x : Int
  y : Int
  start_x : Int
  start_y : Int
  facing : String
  movement_type : String
  blocks : Int
  blocks_moved : Int
  last_move : ℚ
  move_cooldown : ℚ
  state : String
  state_timer : ℚ
  anim : AnimationManager
deriving DecidableEq

/-- `Enemy.__init__(x, y, enemy_type, movement, blocks)`: position
snapped to the tile grid, facing right, state `moving`, with the walk
animation started at construction time `now`. -/
def Enemy.init (x y : Int) (enemy_type : String) (movement : String)
    (blocks : Int) (now : ℚ) : Enemy :=
  { x := (Int.fdiv x TILE_SIZE) * TILE_SIZE
    y := (Int.fdiv y TILE_SIZE) * TILE_SIZE
    start_x := (Int.fdiv x TILE_SIZE) * TILE_SIZE
    start_y := (Int.fdiv y TILE_SIZE) * TILE_SIZE
    facing := "right"
    movement_type := movement
    blocks := blocks
    blocks_moved := 0
    last_move := 0
    move_cooldown := 0.3
    state := "moving"
    state_timer := 0
    anim := (AnimationManager.init ("images/enemy_" ++ enemy_type ++ ".png")
        16 Enemy.ANIMATIONS).play "walk_right" true now }

/-- `Enemy.take_damage()` (lines 804-812): rejected while hurt or
dying; otherwise enters `hurt`, stamps the timer and restarts the hurt
clip for the current facing. -/
def Enemy.take_damage (e : Enemy) (now : ℚ) : Bool × Enemy :=
  if e.state ∈ ["hurt", "dying"] then (false, e)
  else
    (true, { e with state := "hurt", state_timer := now,
                    anim := e.anim.play ("hurt_" ++ e.facing) true now })

/-- `Enemy.start_death()`: enter `dying` and stamp the timer (hit
sound external). -/
def Enemy.start_death (e : Enemy) (now : ℚ) : Enemy :=
  { e with state := "dying", state_timer := now }

/-- `Enemy.should_be_removed()`: dying for at least one second. -/
def Enemy.should_be_removed (e : Enemy) (now : ℚ) : Prop :=
  e.state = "dying" ∧ now - e.state_timer ≥ 1.0

instance (e : Enemy) (t : ℚ) : Decidable (e.should_be_removed t) := by
  unfold Enemy.should_be_removed; infer_instance

/-- `Pickup.ANIMATIONS` (class-level animation definitions). -/
def Pickup.ANIMATIONS : List (String × AnimClip) :=
  [("heart", ⟨[(4, 0), (4, 1), (4, 2), (4, 3)], 0.6, true⟩),
   ("key", ⟨[(0, 0), (0, 1), (0, 2), (0, 3)], 0.6, true⟩)]

/-- Pickup state (`game.py` lines 899-922): grid-snapped position, type
tag, collected flag and animation player. -/
structure Pickup where
  x : Int
  y : Int
  pickup_type : String
  collected : Bool
  anim : AnimationManager
deriving DecidableEq

/-- `Pickup.__init__(x, y, pickup_type)`: position snapped to the tile
grid; a type present in the animation table starts its clip, any other
type is normalized to `"heart"` and starts the heart clip. -/
def Pickup.init (x y : Int) (pickup_type : String) (now : ℚ) : Pickup :=
  let base : Pickup :=
    { x := (Int.fdiv x TILE_SIZE) * TILE_SIZE
      y := (Int.fdiv y TILE_SIZE) * TILE_SIZE
      pickup_type := pickup_type
      collected := false
      anim := AnimationManager.init "images/pickup_animated.png" 16
          Pickup.ANIMATIONS }
  if (Pickup.ANIMATIONS.lookup pickup_type).isSome then
    { base with anim := base.anim.play pickup_type true now }
  else
    { base with pickup_type := "heart",
                anim := base.anim.play "heart" true now }

/-- `Pickup._collect_heart(player)`: restore one health point when
below max, otherwise leave health alone (only the played sound
differs). -/
def Pickup.collect_heart (player : Player) : Player :=
  if player.health < player.max_health then
    { player with health := player.health + 1 }
  else player

/-- `Pickup._collect_key(player)`: records the key only through a log
and a sound in the source; the player record is unchanged. -/
def Pickup.collect_key (player : Player) : Player :=
  player

/-- `Pickup.collect(player)` (lines 933-948): rejected when already
collected; otherwise marks the pickup collected and applies the
per-type effect to the player. -/
def Pickup.collect (pk : Pickup) (player : Player) :
    Bool × Pickup × Player :=
  if pk.collected then (false, pk, player)
  else
    let pk := { pk with collected := true }
    if pk.pickup_type = "heart" then
      (true, pk, Pickup.collect_heart player)
    else if pk.pickup_type = "key" then
      (true, pk, Pickup.collect_key player)
    else (true, pk, player)

/-- `Pickup.should_be_removed()`: true once collected. -/
def Pickup.should_be_removed (pk : Pickup) : Bool :=
  pk.collected

/-- Door data (`game.py` lines 867-876): a rectangle and a locked
flag. -/
structure Door where
  x : Int
  y : Int
  width : Int
  height : Int
  locked : Bool
deriving DecidableEq

/-- `Door.can_enter()`. -/
def Door.can_enter (d : Door) : Bool :=
  ! d.locked

/-- An element of the heterogeneous `LevelLoader.objects` list, which
holds the player and the enemies. -/
inductive Entity
  | playerEnt (p : Player)
  | enemyEnt (e : Enemy)
deriving DecidableEq

/-- A dynamically typed tile-map object property value (TMX custom
properties carry strings, booleans or integers). -/
inductive PropVal
  | str (s : String)
  | boolVal (b : Bool)
  | intVal (n : Int)
deriving DecidableEq

/-- Python truthiness of a property value, as used for the door
`locked` flag. -/
def PropVal.truthy : PropVal → Bool
  | PropVal.str s => s ≠ ""
  | PropVal.boolVal b => b
  | PropVal.intVal n => n ≠ 0

/-- Python `str()` of a property value, as produced when a non-string
property is interpolated or compared as a type tag. -/
def PropVal.toStr : PropVal → String
  | PropVal.str s => s
  | PropVal.boolVal b => if b then "True" else "False"
  | PropVal.intVal n => toString n

/-- Python `int()` of a property value: string parsing can fail with a
`ValueError`, modelled as `none`. -/
def PropVal.toIntVal : PropVal → Option Int
  | PropVal.str s => s.toInt?
  | PropVal.boolVal b => some (if b then 1 else 0)
  | PropVal.intVal n => some n

/-- A tile-map object of the `objects` layer: its name discriminator,
rectangle and custom properties. -/
structure TmxObject where
  name : Option String
  x : Int
  y : Int
  width : Int
  height : Int
  properties : List (String × PropVal)
deriving DecidableEq

/-- A tile-map layer: either a tile layer (with per-cell
`(x, y, gid)` data, gid 0 meaning empty) or an object group. -/
inductive TmxLayer
  | tiles (name : String) (data : List (Nat × Nat × Nat))
  | objectGroup (name : String) (objs : List TmxObject)
deriving DecidableEq

/-- The name of a layer of either kind. -/
def TmxLayer.name : TmxLayer → String
  | TmxLayer.tiles n _ => n
  | TmxLayer.objectGroup n _ => n

/-- A decoded tile map as consumed by the level loader: dimensions in
tiles, tile pixel size, the layer list, the per-gid animation frame
gids when a tile definition carries frames, and a per-gid flag for
whether `get_tile_image_by_gid` yields a surface. -/
structure TmxData where
  width : Nat
  height : Nat
  tilewidth : Nat
  tileheight : Nat
  layers : List TmxLayer
  tileFrames : Nat → Option (List Nat)
  tileImage : Nat → Bool

/-- An animated-tile descriptor: pixel position plus the gids of the
resolved frame surfaces. -/
structure AnimatedTile where
  x : Nat
  y : Nat
  frames : List Nat
deriving DecidableEq

/-- `LevelLoader` state (`game.py` lines 1021-1038): the configured
level sequence and index, the loaded map, the pre-rendered background
(modelled as its ordered list of `(pixel_x, pixel_y, gid)` tile
blits), the camera, the entity, door and pickup lists, the player
back-reference, the collision grid, the animated-tile descriptors and
the level-transition state. -/
structure LevelLoader where
  level_sequence : List String
  current_level_index : Nat
  tmx_data : Option TmxData
  bg_surface : Option (List (Nat × Nat × Nat))
  camera_x : Int
  camera_y : Int
  objects : List Entity
  player : Option Player
  collision_grid : List (List Bool)
  animated_tiles : List AnimatedTile
  doors : List Door
  pickups : List Pickup
  transitioning : Bool
  transition_timer : ℚ
  transition_duration : ℚ

/-- `LevelLoader.is_position_blocked(x, y)` (lines 1276-1286): the
pixel coordinates are floor-divided down to tile indices; a negative
index, a row index at or past the number of grid rows, or a column
index at or past the width of the first grid row is blocked
(fail-safe closed); otherwise the grid cell decides.  The Python
short-circuit that keeps `collision_grid[0]` from being read on an
empty grid is mirrored by the ordered disjunction. -/
def LevelLoader.is_position_blocked (ld : LevelLoader) (x y : Int) :
    Bool :=
  let tile_x := Int.fdiv x TILE_SIZE
  let tile_y := Int.fdiv y TILE_SIZE
  if tile_x < 0 ∨ tile_y < 0 ∨
     (ld.collision_grid.length : Int) ≤ tile_y ∨
     ((ld.collision_grid.headD []).length : Int) ≤ tile_x then true
  else ((ld.collision_grid.getD tile_y.toNat []).getD tile_x.toNat false)

/-- `LevelLoader.start_transition()` (lines 1254-1261): rejected while
a transition is already active; otherwise marks transitioning and
stamps the fade timer. -/
def LevelLoader.start_transition (ld : LevelLoader) (now : ℚ) :
    Bool × LevelLoader :=
  if ld.transitioning then (false, ld)
  else (true, { ld with transitioning := true, transition_timer := now })

/-- `GameStateManager` transition-relevant state (`game.py` lines
38-60): the current top-level state code, the pause flag, and the
crossfade transition state. -/
structure GameStateManager where
  current_state : Nat
  game_paused : Bool
  transitioning : Bool
  transition_timer : ℚ
  transition_duration : ℚ
  next_state : Option Nat
deriving DecidableEq

/-- `GameStateManager.start_state_transition(next_state)` (lines
101-109): rejected while a transition is already active; otherwise
marks transitioning, stamps the fade timer and records the pending
state. -/
def GameStateManager.start_state_transition (g : GameStateManager)
    (next_state : Nat) (now : ℚ) : Bool × GameStateManager :=
  if g.transitioning then (false, g)
  else
    (true, { g with transitioning := true, transition_timer := now,
                    next_state := some next_state })

/-- The `can_move` computation of `Enemy._update_movement`
(`can_move = True`, overwritten with the collision query when a loader
was passed): whether the destination is blocked, false without a
loader. -/
def blockedAt (level_loader : Option LevelLoader) (x y : Int) : Bool :=
  match level_loader with
  | none => false
  | some ld => ld.is_position_blocked x y

/-- `Enemy._update_movement(now, level_loader)` (lines 769-802): a
no-op before the 0.3 s cooldown; otherwise one tile of movement along
the fixed axis in the facing direction is attempted, with the
destination checked against the loader collision grid when a loader is
supplied.  A completed step increments the leg counter and, once the
configured leg length is reached, enters `idle`; a blocked destination
enters `idle` immediately without moving. -/
def Enemy.update_movement (e : Enemy) (now : ℚ)
    (level_loader : Option LevelLoader) : Enemy :=
  if now - e.last_move < e.move_cooldown then e
  else
    let dx : Int := if e.movement_type = "horizontal" then
        (if e.facing = "right" then 1 else -1) else 0
    let dy : Int := if e.movement_type = "horizontal" then 0
        else (if e.facing = "right" then 1 else -1)
    let new_x := e.x + dx * TILE_SIZE
    let new_y := e.y + dy * TILE_SIZE
    let can_move := ! blockedAt level_loader new_x new_y
    if can_move then
      let e1 := { e with x := new_x, y := new_y,
                         blocks_moved := e.blocks_moved + 1,
                         last_move := now }
      if e1.blocks_moved ≥ e1.blocks then
        { e1 with state := "idle", state_timer := now,
                  anim := e1.anim.play ("idle_" ++ e1.facing) true now }
      else e1
    else
      { e with state := "idle", state_timer := now,
               anim := e.anim.play ("idle_" ++ e.facing) true now }

/-- `Enemy.update(level_loader)` (lines 747-767): while `dying`, the
enemy idles (its animation only keeps stepping during the first
second); `hurt` reverts to `moving` after 0.8 s; `moving` runs the
patrol step; after 3.0 s of `idle` the facing flips, the leg counter
resets and the walk resumes.  The animation player is stepped at the
end of every non-removed update. -/
def Enemy.update (e : Enemy) (now : ℚ)
    (level_loader : Option LevelLoader) : Enemy :=
  if e.state = "dying" then
    if now - e.state_timer ≥ 1.0 then e
    else { e with anim := e.anim.update now }
  else
    let e1 :=
      if e.state = "hurt" then
        if now - e.state_timer ≥ 0.8 then
          { e with state := "moving",
                   anim := e.anim.play ("walk_" ++ e.facing) true now }
        else e
      else if e.state = "moving" then e.update_movement now level_loader
      else if e.state = "idle" then
        if now - e.state_timer ≥ 3.0 then
          let f := if e.facing = "right" then "left" else "right"
          { e with facing := f, state := "moving", blocks_moved := 0,
                   anim := e.anim.play ("walk_" ++ f) true now }
        else e
      else e
    { e1 with anim := e1.anim.update now }

/-- The external environment of one level-load attempt: the load time,
the map resolver (`pytmx.load_pygame`, `none` when the map file is
missing or undecodable, in which case the exception leaves
`tmx_data` unassigned), and the spritesheet oracle (`pygame.image.load`
through the process-wide sprite cache: `false` when the sheet is
neither cached nor loadable, raising inside the entity constructor). -/
structure LoadEnv where
  now : ℚ
  loadMap : String → Option TmxData
  imageOk : String → Bool

/-- The per-cell data of the first tile layer with the given name, as
iterated by the `layer.name == name and hasattr(layer, "data")`
searches of the loader. -/
def findTileLayerData : List TmxLayer → String → Option (List (Nat × Nat × Nat))
  | [], _ => none
  | TmxLayer.tiles n d :: rest, name =>
      if n = name then some d else findTileLayerData rest name
  | TmxLayer.objectGroup _ _ :: rest, name => findTileLayerData rest name

/-- The objects of the first object group named `"objects"`, as
iterated by `_load_objects`. -/
def findObjectsLayer : List TmxLayer → Option (List TmxObject)
  | [] => none
  | TmxLayer.tiles _ _ :: rest => findObjectsLayer rest
  | TmxLayer.objectGroup n objs :: rest =>
      if n = "objects" then some objs else findObjectsLayer rest

/-- Set one cell of the collision grid. -/
def setGridCell (g : List (List Bool)) (y x : Nat) : List (List Bool) :=
  g.set y ((g.getD y []).set x true)

/-- `LevelLoader._create_collision_grid()` (lines 1077-1091): a
`height × width` grid of `false`, with the cell for every nonzero gid
of the first `colliders` tile layer that is inside the grid set to
`true`. -/
def create_collision_grid (tmx : TmxData) : List (List Bool) :=
  let init := List.replicate tmx.height (List.replicate tmx.width false)
  match findTileLayerData tmx.layers "colliders" with
  | none => init
  | some data =>
      data.foldl (fun g cell =>
        if cell.2.2 ≠ 0 ∧ cell.2.1 < tmx.height ∧ cell.1 < tmx.width then
          setGridCell g cell.2.1 cell.1
        else g) init

/-- `LevelLoader._render_background()` (lines 1093-1117), as the
ordered list of `(pixel_x, pixel_y, gid)` tile blits composited onto
the background surface from the `background` and `colliders` tile
layers (cells whose gid is zero or has no tile image are skipped). -/
def render_background (tmx : TmxData) : List (Nat × Nat × Nat) :=
  (["background", "colliders"].map (fun layer_name =>
    match findTileLayerData tmx.layers layer_name with
    | none => []
    | some data =>
        (data.filter (fun cell => cell.2.2 ≠ 0 ∧ tmx.tileImage cell.2.2)).map
          (fun cell => (cell.1 * tmx.tilewidth, cell.2.1 * tmx.tileheight,
                        cell.2.2)))).flatten

/-- Python `str.lower()`, character by character (equivalent to
`String.toLower`, written structurally). -/
def pyLower (s : String) : String :=
  ⟨s.data.map Char.toLower⟩

/-- Dispatch of one `objects`-layer object inside
`LevelLoader._load_objects` (lines 1137-1199).  An entity whose
spritesheet cannot be obtained raises inside its constructor, modelled
as `Except.error` carrying the loader state already mutated by the
objects processed so far; so does a `blocks` property that `int()`
cannot parse.  The `info` music side effect is external (and
`_load_music` swallows its own errors). -/
def process_object (st : LevelLoader) (env : LoadEnv)
    (previous_health : Option Int) (obj : TmxObject) :
    Except LevelLoader LevelLoader :=
  let name := pyLower (obj.name.getD "")
  if name = "player" then
    if env.imageOk "images/player.png" ∧
       env.imageOk "images/weapons_animated.png" then
      let base := Player.init obj.x obj.y env.now
      let player := match previous_health with
        | some hp => { base with health := hp }
        | none => base
      Except.ok { st with objects := st.objects ++ [Entity.playerEnt player],
                          player := some player }
    else Except.error st
  else if name = "door" then
    let locked := match obj.properties.lookup "locked" with
      | some v => v.truthy
      | none => true
    Except.ok { st with doors := st.doors ++
        [{ x := obj.x, y := obj.y, width := obj.width,
           height := obj.height, locked := locked }] }
  else if name = "pickup" then
    if env.imageOk "images/pickup_animated.png" then
      let ptype := match obj.properties.lookup "pickup_type" with
        | some v => v.toStr
        | none => "heart"
      Except.ok { st with pickups := st.pickups ++
          [Pickup.init obj.x obj.y ptype env.now] }
    else Except.error st
  else if name = "enemy" then
    let etype := match obj.properties.lookup "enemy_type" with
      | some v => v.toStr
      | none => "rat"
    let movement := match obj.properties.lookup "enemy_movement" with
      | some v => v.toStr
      | none => "horizontal"
    let blocksProp := match obj.properties.lookup "blocks" with
      | some v => v.toIntVal
      | none => some 2
    match blocksProp with
    | none => Except.error st
    | some blocks =>
      if env.imageOk ("images/enemy_" ++ etype ++ ".png") then
        Except.ok { st with objects := st.objects ++
            [Entity.enemyEnt (Enemy.init obj.x obj.y etype movement
                blocks env.now)] }
      else Except.error st
  else Except.ok st

/-- Left-to-right processing of the objects layer, aborting at the
first raising constructor. -/
def process_objects (st : LevelLoader) (env : LoadEnv)
    (previous_health : Option Int) :
    List TmxObject → Except LevelLoader LevelLoader
  | [] => Except.ok st
  | obj :: rest =>
    match process_object st env previous_health obj with
    | Except.error st1 => Except.error st1
    | Except.ok st1 => process_objects st1 env previous_health rest

/-- `LevelLoader._load_objects()` (lines 1119-1199): remembers the old
player health, clears the object, door and pickup lists and the player
reference, then repopulates them from the first `objects` layer,
copying the remembered health into a freshly constructed player. -/
def load_objects (st : LevelLoader) (env : LoadEnv) :
    Except LevelLoader LevelLoader :=
  let previous_health := st.player.map Player.health
  let st1 := { st with objects := [], player := none, doors := [],
                       pickups := [] }
  match st1.tmx_data with
  | none => Except.ok st1
  | some tmx =>
    match findObjectsLayer tmx.layers with
    | none => Except.ok st1
    | some objs => process_objects st1 env previous_health objs

/-- `LevelLoader._get_tile_frames(gid)` (lines 1235-1252): the list of
frame gids whose surfaces resolve when the tile definition carries
frames, else the tile itself when its surface resolves. -/
def get_tile_frames (tmx : TmxData) (gid : Nat) : List Nat :=
  match tmx.tileFrames gid with
  | some fgids => fgids.filter tmx.tileImage
  | none => if tmx.tileImage gid then [gid] else []

/-- `LevelLoader._load_animated_tiles()` (lines 1210-1233): one
descriptor per nonzero-gid cell of the first `animated` tile layer
whose resolved frame list has more than one entry. -/
def load_animated_tiles (tmx : TmxData) : List AnimatedTile :=
  match findTileLayerData tmx.layers "animated" with
  | none => []
  | some data =>
    (data.filterMap (fun cell =>
      if cell.2.2 ≠ 0 then
        let frames := get_tile_frames tmx cell.2.2
        if frames.length > 1 then
          some { x := cell.1 * tmx.tilewidth,
                 y := cell.2.1 * tmx.tileheight, frames := frames }
        else none
      else none))

/-- `LevelLoader.load_current_level()` (lines 1058-1075): an index past
the configured sequence fails immediately; a map that does not resolve
fails with the state untouched (the exception fires before the
`tmx_data` assignment); otherwise the collision grid, background,
objects and animated tiles are rebuilt in order, and an exception in
the objects pass surfaces as a failed load that keeps the mutations
already performed. -/
def load_current_level (st : LevelLoader) (env : LoadEnv) :
    Bool × LevelLoader :=
  if st.level_sequence.length ≤ st.current_level_index then (false, st)
  else
    match env.loadMap (st.level_sequence.getD st.current_level_index "") with
    | none => (false, st)
    | some tmx =>
      let st1 := { st with tmx_data := some tmx }
      let st2 := { st1 with collision_grid := create_collision_grid tmx }
      let st3 := { st2 with bg_surface := some (render_background tmx) }
      match load_objects st3 env with
      | Except.error stE => (false, stE)
      | Except.ok st4 =>
        (true, { st4 with animated_tiles := load_animated_tiles tmx })

/-- C5: collecting an already-collected Pickup, damaging a dying
Player and damaging a dying Enemy each return failure and leave every
field of the pickup, the player and the enemy unchanged. -/
theorem c5_guarded_idempotence :
    (∀ (pk : Pickup) (pl : Player), pk.collected = true →
        Pickup.collect pk pl = (false, pk, pl)) ∧
    (∀ (p : Player) (damage : Int) (now : ℚ), p.state = "dying" →
        Player.take_damage p damage now = (false, p)) ∧
    (∀ (e : Enemy) (now : ℚ), e.state = "dying" →
        Enemy.take_damage e now = (false, e)) := by
  refine ⟨fun pk pl h => ?_, fun p damage now h => ?_, fun e now h => ?_⟩
  · simp [Pickup.collect, h]
  · simp [Player.take_damage, h]
  · simp [Enemy.take_damage, h]

/-- C5 witness: the guards fire on concrete already-collected and
dying instances. -/
theorem c5_guarded_idempotence_witness :
    Pickup.collect { Pickup.init 0 0 "heart" 0 with collected := true }
        (Player.init 0 0 0) =
      (false, { Pickup.init 0 0 "heart" 0 with collected := true },
       Player.init 0 0 0) ∧
    Player.take_damage { Player.init 0 0 0 with state := "dying" } 1 2 =
      (false, { Player.init 0 0 0 with state := "dying" }) ∧
    Enemy.take_damage
        { Enemy.init 0 0 "rat" "horizontal" 2 0 with state := "dying" } 2 =
      (false, { Enemy.init 0 0 "rat" "horizontal" 2 0 with
                state := "dying" }) :=
  ⟨c5_guarded_idempotence.1 _ _ rfl,
   c5_guarded_idempotence.2.1 _ 1 2 rfl,
   c5_guarded_idempotence.2.2 _ 2 rfl⟩

/-- C6: requesting a state transition while one is active, on the
GameStateManager or the LevelLoader, returns failure and leaves the
whole record — fade timer, pending state and transitioning flag
included — unchanged. -/
theorem c6_duplicate_transition_rejected :
    (∀ (g : GameStateManager) (next_state : Nat) (now : ℚ),
        g.transitioning = true →
        GameStateManager.start_state_transition g next_state now =
          (false, g)) ∧
    (∀ (ld : LevelLoader) (now : ℚ), ld.transitioning = true →
        LevelLoader.start_transition ld now = (false, ld)) := by
  refine ⟨fun g next_state now h => ?_, fun ld now h => ?_⟩
  · simp [GameStateManager.start_state_transition, h]
  · simp [LevelLoader.start_transition, h]

/-- A concrete loader state used by witnesses: the freshly constructed
field values of `LevelLoader.__init__` before `load_current_level`
runs, with a small concrete collision grid. -/
def sampleLoader : LevelLoader :=
  { level_sequence := ["level-1", "level-2"]
    current_level_index := 0
    tmx_data := none
    bg_surface := none
    camera_x := 0
    camera_y := 0
    objects := []
    player := none
    collision_grid := [[false, true], [true, false]]
    animated_tiles := []
    doors := []
    pickups := []
    transitioning := false
    transition_timer := 0
    transition_duration := 0.5 }

/-- C6 witness: duplicate transition requests on concrete transitioning
records change nothing and return failure. -/
theorem c6_duplicate_transition_rejected_witness :
    GameStateManager.start_state_transition
        { current_state := 1, game_paused := false, transitioning := true,
          transition_timer := 7, transition_duration := 0.5,
          next_state := some 4 } 4 9 =
      (false,
       { current_state := 1, game_paused := false, transitioning := true,
         transition_timer := 7, transition_duration := 0.5,
         next_state := some 4 }) ∧
    LevelLoader.start_transition
        { sampleLoader with transitioning := true, transition_timer := 7 }
        9 =
      (false,
       { sampleLoader with transitioning := true, transition_timer := 7 }) :=
  ⟨c6_duplicate_transition_rejected.1 _ 4 9 rfl,
   c6_duplicate_transition_rejected.2 _ 9 rfl⟩

/-- C7: a coordinate whose tile index is negative, at or past the
number of collision-grid rows, or at or past the width of the first
row, is reported blocked; a coordinate inside those extents is
reported exactly as its grid cell (stated for the rectangular grids
`_create_collision_grid` builds). -/
theorem c7_is_position_blocked_fail_closed (ld : LevelLoader) (x y : Int)
    (w : Nat) (hrect : ∀ row ∈ ld.collision_grid, row.length = w) :
    (Int.fdiv x TILE_SIZE < 0 ∨ Int.fdiv y TILE_SIZE < 0 ∨
        (ld.collision_grid.length : Int) ≤ Int.fdiv y TILE_SIZE ∨
        ((ld.collision_grid.headD []).length : Int) ≤ Int.fdiv x TILE_SIZE →
      ld.is_position_blocked x y = true) ∧
    (0 ≤ Int.fdiv x TILE_SIZE → 0 ≤ Int.fdiv y TILE_SIZE →
      (Int.fdiv y TILE_SIZE).toNat < ld.collision_grid.length →
      (Int.fdiv x TILE_SIZE).toNat <
        (ld.collision_grid.headD []).length →
      ∃ (h1 : (Int.fdiv y TILE_SIZE).toNat < ld.collision_grid.length)
        (h2 : (Int.fdiv x TILE_SIZE).toNat <
          (ld.collision_grid.get ⟨(Int.fdiv y TILE_SIZE).toNat, h1⟩).length),
        ld.is_position_blocked x y =
          (ld.collision_grid.get ⟨(Int.fdiv y TILE_SIZE).toNat, h1⟩).get
            ⟨(Int.fdiv x TILE_SIZE).toNat, h2⟩) := by
  constructor
  · intro h
    simp only [LevelLoader.is_position_blocked]
    rw [if_pos h]
  · intro htx0 hty0 hty htx
    have hrow : (ld.collision_grid.get
        ⟨(Int.fdiv y TILE_SIZE).toNat, hty⟩).length = w :=
      hrect _ (List.get_mem _ _ _)
    have hhead : (ld.collision_grid.headD []).length = w := by
      cases hg : ld.collision_grid with
      | nil => rw [hg] at hty; exact absurd hty (by simp)
      | cons r rest =>
        have hr : r ∈ ld.collision_grid := by
          rw [hg]; exact List.mem_cons_self r rest
        simpa [hg] using hrect r hr
    have htx2 : (Int.fdiv x TILE_SIZE).toNat <
        (ld.collision_grid.get
          ⟨(Int.fdiv y TILE_SIZE).toNat, hty⟩).length := by
      rw [hrow, ← hhead]; exact htx
    refine ⟨hty, htx2, ?_⟩
    simp only [LevelLoader.is_position_blocked]
    rw [if_neg (by omega)]
    have hgetd : ld.collision_grid.getD (Int.fdiv y TILE_SIZE).toNat [] =
        ld.collision_grid.get ⟨(Int.fdiv y TILE_SIZE).toNat, hty⟩ := by
      rw [List.getD_eq_getElem _ _ hty, List.get_eq_getElem]
    rw [hgetd, List.getD_eq_getElem _ _ htx2]
    rfl

/-- C7 witness: on the concrete 2x2 sample grid, a coordinate left of
the grid is blocked and an in-range coordinate reports its cell. -/
theorem c7_is_position_blocked_fail_closed_witness :
    sampleLoader.is_position_blocked (-16) 0 = true ∧
    sampleLoader.is_position_blocked 16 0 = true := by
  constructor
  · exact (c7_is_position_blocked_fail_closed sampleLoader (-16) 0 2
      (by decide)).1 (by decide)
  · obtain ⟨h1, h2, heq⟩ := (c7_is_position_blocked_fail_closed
      sampleLoader 16 0 2 (by decide)).2 (by decide) (by decide)
      (by decide) (by decide)
    rw [heq]
    rfl

/-- A concrete animation player used by the C1 material: a five-frame
looping clip with a 0.1 s frame duration, active on frame 0 with its
timer at 0. -/
def walkAnimPlayer : AnimationManager :=
  { spritesheet := "images/enemy_rat.png"
    tile_size := 16
    animations := [("walk", ⟨[(0, 0), (0, 1), (0, 2), (0, 3), (0, 4)], 0.1,
        true⟩)]
    current_anim := some "walk"
    frame_idx := 0
    last_update := 0
    finished := false
    paused := false }

/-- C1 counterexample: after exactly three frame durations (0.3 s)
elapse in one go, a single `update` call advances the frame index by
one, not by the three elapsed multiples the claim requires — the two
excess frames are dropped because the timer is reset to `now`. -/
theorem c1_counterexample :
    (0.3 : ℚ) - walkAnimPlayer.last_update = 3 * (0.1 : ℚ) ∧
    (walkAnimPlayer.update 0.3).frame_idx = 1 ∧
    (walkAnimPlayer.update 0.3).frame_idx ≠ 3 ∧
    (walkAnimPlayer.update 0.3).last_update = 0.3 := by
  refine ⟨by norm_num [walkAnimPlayer], ?_, ?_, ?_⟩ <;>
    norm_num [AnimationManager.update, walkAnimPlayer, List.lookup]

/-- C1 amended: for an active, unpaused, unfinished clip, one `update`
call advances the frame index at most once — exactly once when at
least one frame duration has elapsed since the last advance, with the
timer reset to `now` and the excess elapsed time discarded (wrapping
to 0 on overflow for a looping clip, clamping to the last index and
finishing for a non-looping one) — and not at all otherwise. -/
theorem c1_anim_update_single_step (m : AnimationManager) (now : ℚ)
    (name : String) (anim : AnimClip)
    (hcur : m.current_anim = some name)
    (hlk : m.animations.lookup name = some anim)
    (hfin : m.finished = false) (hpau : m.paused = false) :
    (now - m.last_update ≥ anim.duration →
      (m.update now).last_update = now ∧
      (if m.frame_idx + 1 ≥ anim.frames.length then
         (if anim.loop then
            (m.update now).frame_idx = 0 ∧ (m.update now).finished = false
          else
            (m.update now).frame_idx = anim.frames.length - 1 ∧
            (m.update now).finished = true)
       else
         (m.update now).frame_idx = m.frame_idx + 1 ∧
         (m.update now).finished = false)) ∧
    (¬ (now - m.last_update ≥ anim.duration) → m.update now = m) := by
  constructor
  · intro helapsed
    by_cases hover : m.frame_idx + 1 ≥ anim.frames.length
    · by_cases hloop : anim.loop = true
      · simp [AnimationManager.update, hcur, hlk, hfin, hpau, helapsed,
          hover, hloop]
      · simp [AnimationManager.update, hcur, hlk, hfin, hpau, helapsed,
          hover, hloop]
    · simp [AnimationManager.update, hcur, hlk, hfin, hpau, helapsed, hover]
  · intro hearly
    simp [AnimationManager.update, hcur, hlk, hfin, hpau, hearly]

/-- C1 witness: the single-step amended behavior on the concrete
five-frame clip, with one frame duration elapsed. -/
theorem c1_anim_update_single_step_witness :
    (0.2 : ℚ) - walkAnimPlayer.last_update ≥ (0.1 : ℚ) ∧
    (walkAnimPlayer.update 0.2).last_update = 0.2 ∧
    (walkAnimPlayer.update 0.2).frame_idx = 1 := by
  have h := (c1_anim_update_single_step walkAnimPlayer 0.2 "walk"
      ⟨[(0, 0), (0, 1), (0, 2), (0, 3), (0, 4)], 0.1, true⟩ rfl rfl rfl
      rfl).1 (by norm_num [walkAnimPlayer])
  refine ⟨by norm_num [walkAnimPlayer], h.1, ?_⟩
  have h2 := h.2
  norm_num [walkAnimPlayer] at h2 ⊢
  exact h2.1

/-- C3 counterexample: a boundary-blocked horizontal move fails (the
returned flag is false) yet still flips the facing, because `move`
assigns facing from the sign of `dx` before the boundary check: a
fresh player at the origin moving left keeps its position but turns
from `"right"` to `"left"`. -/
theorem c3_counterexample :
    ((Player.init 0 0 0).move (-1) 0 320 240 1).1 = false ∧
    (Player.init 0 0 0).facing = "right" ∧
    ((Player.init 0 0 0).move (-1) 0 320 240 1).2.facing = "left" ∧
    ((Player.init 0 0 0).move (-1) 0 320 240 1).2.x =
      (Player.init 0 0 0).x := by
  have hguard : ¬ ((Player.init 0 0 0).state ∈ ["attacking", "hurt", "dying"]
      ∨ ¬ (Player.init 0 0 0).can_move 1) := by
    rw [not_or, not_not]
    constructor
    · decide
    · show (1 : ℚ) - (Player.init 0 0 0).last_move ≥ MOVEMENT_COOLDOWN
      norm_num [Player.init, MOVEMENT_COOLDOWN]
  simp only [Player.move, if_neg hguard]
  norm_num [Player.init, TILE_SIZE]

/-- C3 amended: a move rejected by the state or cooldown guard returns
the player completely unchanged (facing included); a move that passes
those guards sets facing from the sign of `dx` — to the side of a
nonzero horizontal component whether or not the boundary check then
lets the step happen, and unchanged for a vertical-only move. -/
theorem c3_facing_update (p : Player) (dx dy : Int)
    (level_width level_height : Int) (current_time : ℚ) :
    (p.state ∈ ["attacking", "hurt", "dying"] ∨ ¬ p.can_move current_time →
      p.move dx dy level_width level_height current_time = (false, p)) ∧
    (p.state ∉ ["attacking", "hurt", "dying"] → p.can_move current_time →
      (dx = 0 →
        (p.move dx dy level_width level_height current_time).2.facing =
          p.facing) ∧
      (dx > 0 →
        (p.move dx dy level_width level_height current_time).2.facing =
          "right") ∧
      (dx < 0 →
        (p.move dx dy level_width level_height current_time).2.facing =
          "left")) := by
  constructor
  · intro h
    simp only [Player.move, if_pos h]
  · intro hstate hcan
    have hguard : ¬ (p.state ∈ ["attacking", "hurt", "dying"] ∨
        ¬ p.can_move current_time) := by
      push_neg
      exact ⟨hstate, hcan⟩
    refine ⟨?_, ?_, ?_⟩
    · intro hdx
      subst hdx
      simp only [Player.move, if_neg hguard]
      norm_num
      split <;> rfl
    · intro hdx
      simp only [Player.move, if_neg hguard, if_pos hdx]
      split <;> rfl
    · intro hdx
      have hdx2 : ¬ dx > 0 := by omega
      simp only [Player.move, if_neg hguard, if_neg hdx2, if_pos hdx]
      split <;> rfl

/-- C3 witness: a dying player is returned unchanged by a failed move,
and a successful rightward move of a fresh player faces right. -/
theorem c3_facing_update_witness :
    Player.move { Player.init 0 0 0 with state := "dying" } 1 0 320 240 1 =
      (false, { Player.init 0 0 0 with state := "dying" }) ∧
    ((Player.init 0 0 0).move 1 0 320 240 1).2.facing = "right" := by
  constructor
  · exact (c3_facing_update _ 1 0 320 240 1).1 (Or.inl (by decide))
  · exact ((c3_facing_update (Player.init 0 0 0) 1 0 320 240 1).2
      (by decide)
      (by show (1 : ℚ) - (Player.init 0 0 0).last_move ≥ MOVEMENT_COOLDOWN
          norm_num [Player.init, MOVEMENT_COOLDOWN])).2.1 (by norm_num)

/-- C8: the Player, Enemy and Pickup constructors produce positions
that are exact multiples of `TILE_SIZE`, and the two position-changing
operations — `Player.move` and `Enemy.update` — preserve that
invariant. -/
theorem c8_grid_snap :
    (∀ (x y : Int) (now : ℚ), TILE_SIZE ∣ (Player.init x y now).x ∧
        TILE_SIZE ∣ (Player.init x y now).y) ∧
    (∀ (x y : Int) (enemy_type movement : String) (blocks : Int) (now : ℚ),
        TILE_SIZE ∣ (Enemy.init x y enemy_type movement blocks now).x ∧
        TILE_SIZE ∣ (Enemy.init x y enemy_type movement blocks now).y) ∧
    (∀ (x y : Int) (pickup_type : String) (now : ℚ),
        TILE_SIZE ∣ (Pickup.init x y pickup_type now).x ∧
        TILE_SIZE ∣ (Pickup.init x y pickup_type now).y) ∧
    (∀ (p : Player) (dx dy level_width level_height : Int)
        (current_time : ℚ), TILE_SIZE ∣ p.x → TILE_SIZE ∣ p.y →
        TILE_SIZE ∣ (p.move dx dy level_width level_height current_time).2.x ∧
        TILE_SIZE ∣ (p.move dx dy level_width level_height current_time).2.y) ∧
    (∀ (e : Enemy) (now : ℚ) (level_loader : Option LevelLoader),
        TILE_SIZE ∣ e.x → TILE_SIZE ∣ e.y →
        TILE_SIZE ∣ (e.update now level_loader).x ∧
        TILE_SIZE ∣ (e.update now level_loader).y) := by
  refine ⟨fun x y now => ⟨dvd_mul_left _ _, dvd_mul_left _ _⟩,
    fun x y et mv b now => ⟨dvd_mul_left _ _, dvd_mul_left _ _⟩,
    fun x y t now => ?_,
    fun p dx dy lw lh ct hx hy => ?_,
    fun e now ldr hx hy => ?_⟩
  · unfold Pickup.init
    split <;> exact ⟨dvd_mul_left _ _, dvd_mul_left _ _⟩
  · unfold Player.move
    dsimp only
    repeat' split
    all_goals first
      | exact ⟨hx, hy⟩
      | exact ⟨dvd_add hx (dvd_mul_left _ _), dvd_add hy (dvd_mul_left _ _)⟩
  · unfold Enemy.update Enemy.update_movement
    dsimp only
    repeat' split
    all_goals first
      | exact ⟨hx, hy⟩
      | exact ⟨dvd_add hx (dvd_mul_left _ _), dvd_add hy (dvd_mul_left _ _)⟩

/-- C8 witness: grid-snap at construction from an unaligned
coordinate, and preservation through a concrete successful player move
and a concrete enemy patrol step. -/
theorem c8_grid_snap_witness :
    TILE_SIZE ∣ (Player.init 5 37 0).x ∧
    TILE_SIZE ∣ (Player.init 5 37 0).y ∧
    TILE_SIZE ∣ ((Player.init 0 0 0).move 1 0 320 240 1).2.x ∧
    TILE_SIZE ∣ ((Enemy.init 0 0 "rat" "horizontal" 2 0).update 1 none).x := by
  refine ⟨(c8_grid_snap.1 5 37 0).1, (c8_grid_snap.1 5 37 0).2,
    (c8_grid_snap.2.2.2.1 (Player.init 0 0 0) 1 0 320 240 1
      ⟨0, by decide⟩ ⟨0, by decide⟩).1,
    (c8_grid_snap.2.2.2.2 (Enemy.init 0 0 "rat" "horizontal" 2 0) 1 none
      ⟨0, by decide⟩ ⟨0, by decide⟩).1⟩

/-- C9 counterexample: a right-facing attacking player at (32, 32)
draws the sword at (16, 16) — one tile to the LEFT and one tile up —
not at (48, 16), one tile toward its facing: the blit offset is
(-16, -16) regardless of facing. -/
theorem c9_counterexample :
    ((Player.init 32 32 0).start_attack 0).2.facing = "right" ∧
    ((Player.init 32 32 0).start_attack 0).2.state = "attacking" ∧
    (Sprite.sword, 16, 16) ∈
      ((Player.init 32 32 0).start_attack 0).2.draw 0 0 0 ∧
    (Sprite.sword, 48, 16) ∉
      ((Player.init 32 32 0).start_attack 0).2.draw 0 0 0 := by
  decide

/-- C9 amended: the sword sprite is blitted only while the player
state is `attacking` (and the invincibility flash does not skip the
frame and the sword clip has a frame), and its blit position is always
the player screen position offset one tile LEFT and one tile up,
independent of facing. -/
theorem c9_sword_draw (p : Player) (now : ℚ) (camera_x camera_y : Int) :
    (p.state ≠ "attacking" → ∀ px py : Int,
        (Sprite.sword, px, py) ∉ p.draw now camera_x camera_y) ∧
    (p.state = "attacking" →
      ¬ (p.invincible_timer > 0 ∧ pyint (now * 10) % 2 ≠ 0) →
      (p.sword_anim.get_frame).isSome = true →
      (Sprite.sword, p.x - camera_x - 16, p.y - camera_y - 16) ∈
        p.draw now camera_x camera_y ∧
      ∀ px py : Int,
        (Sprite.sword, px, py) ∈ p.draw now camera_x camera_y →
        px = p.x - camera_x - 16 ∧ py = p.y - camera_y - 16) := by
  constructor
  · intro hne px py
    by_cases hflash : (p.invincible_timer > 0 ∧ p.state ∉ ["hurt", "dying"] ∧
        pyint (now * 10) % 2 ≠ 0)
    · simp [Player.draw, hflash]
    · cases hbody : p.anim.get_frame <;>
        simp [Player.draw, hflash, hbody, hne]
  · intro hatt hflash hframe
    have hresid : 0 < p.invincible_timer → 2 ∣ pyint (now * 10) := by
      intro h0
      rcases Int.emod_two_eq_zero_or_one (pyint (now * 10)) with h | h
      · omega
      · exact absurd ⟨h0, by omega⟩ hflash
    obtain ⟨fr, hfr⟩ := Option.isSome_iff_exists.mp hframe
    have hnd : p.state ≠ "dying" := by rw [hatt]; decide
    constructor
    · cases hbody : p.anim.get_frame <;>
        simp [Player.draw, hbody, hatt, hnd, hfr, sub_sub] <;>
        exact hresid
    · intro px py hmem
      cases hbody : p.anim.get_frame <;>
        simp [Player.draw, hbody, hatt, hnd, hfr, sub_sub] at hmem <;>
        (rw [sub_sub, sub_sub]; exact hmem.2)

/-- C9 witness: the concrete attacking player draws its sword at
(16, 16), and a concrete idle player draws no sword at all. -/
theorem c9_sword_draw_witness :
    (Sprite.sword, 16, 16) ∈
      ((Player.init 32 32 0).start_attack 0).2.draw 0 0 0 ∧
    ∀ px py : Int,
      (Sprite.sword, px, py) ∉ (Player.init 32 32 0).draw 0 0 0 := by
  constructor
  · exact ((c9_sword_draw ((Player.init 32 32 0).start_attack 0).2 0 0 0).2
      (by decide) (fun h => absurd h.1 (by decide)) (by decide)).1
  · intro px py
    exact (c9_sword_draw (Player.init 32 32 0) 0 0 0).1 (by decide) px py

/-- C10: constructing a Pickup with a type outside the animation table
(neither `"heart"` nor `"key"`) yields exactly the pickup a `"heart"`
construction yields — type field normalized to `"heart"`, heart clip
playing — so collecting it has the heart effect. -/
theorem c10_unknown_pickup_type (x y : Int) (pickup_type : String)
    (now : ℚ) (hne1 : pickup_type ≠ "heart") (hne2 : pickup_type ≠ "key") :
    Pickup.init x y pickup_type now = Pickup.init x y "heart" now ∧
    (Pickup.init x y pickup_type now).pickup_type = "heart" ∧
    (Pickup.init x y pickup_type now).anim.current_anim = some "heart" ∧
    ∀ pl : Player, Pickup.collect (Pickup.init x y pickup_type now) pl =
      Pickup.collect (Pickup.init x y "heart" now) pl := by
  have hb1 : (pickup_type == "heart") = false := beq_eq_false_iff_ne.mpr hne1
  have hb2 : (pickup_type == "key") = false := beq_eq_false_iff_ne.mpr hne2
  have hlkno : Pickup.ANIMATIONS.lookup pickup_type = none := by
    simp [Pickup.ANIMATIONS, List.lookup, hb1, hb2]
  have heq : Pickup.init x y pickup_type now = Pickup.init x y "heart" now := by
    simp [Pickup.init, hlkno]
  exact ⟨heq, by rw [heq]; rfl, by rw [heq]; rfl, fun pl => by rw [heq]⟩

/-- C10 witness: a concrete `"gem"` pickup equals the heart pickup at
the same spot and restores one health point of a hurt player on
collection. -/
theorem c10_unknown_pickup_type_witness :
    Pickup.init 48 48 "gem" 0 = Pickup.init 48 48 "heart" 0 ∧
    (Pickup.init 48 48 "gem" 0).pickup_type = "heart" ∧
    (Pickup.collect (Pickup.init 48 48 "gem" 0)
        { Player.init 0 0 0 with health := 2 }).2.2.health = 3 := by
  have h := c10_unknown_pickup_type 48 48 "gem" 0 (by decide) (by decide)
  refine ⟨h.1, h.2.1, ?_⟩
  rw [h.2.2.2 { Player.init 0 0 0 with health := 2 }]
  decide

/-- C4: an enemy with `blocks = 2` in the `moving` state on an
unobstructed grid steps one tile along its configured axis per
0.3 s-cooldown update, enters `idle` on the second step with the idle
timer stamped, and, once 3.0 s of idle have elapsed, flips its facing,
resets its step counter to 0 and returns to `moving` without having
moved during the idle phase. -/
theorem c4_enemy_patrol (e : Enemy) (ldr : Option LevelLoader) (t1 t2 t3 : ℚ)
    (hfree : ∀ a b : Int, blockedAt ldr a b = false)
    (hstate : e.state = "moving") (hblocks : e.blocks = 2)
    (hmoved : e.blocks_moved = 0) (hcool : e.move_cooldown = 0.3)
    (h1 : t1 - e.last_move ≥ 0.3) (h2 : t2 - t1 ≥ 0.3)
    (h3 : t3 - t2 ≥ 3.0) :
    ((e.update t1 ldr).state = "moving" ∧
     (e.update t1 ldr).blocks_moved = 1 ∧
     (e.update t1 ldr).facing = e.facing ∧
     (e.update t1 ldr).x = e.x +
       (if e.movement_type = "horizontal" then
          (if e.facing = "right" then 1 else -1) else 0) * TILE_SIZE ∧
     (e.update t1 ldr).y = e.y +
       (if e.movement_type = "horizontal" then 0
        else (if e.facing = "right" then 1 else -1)) * TILE_SIZE) ∧
    (((e.update t1 ldr).update t2 ldr).state = "idle" ∧
     ((e.update t1 ldr).update t2 ldr).blocks_moved = 2 ∧
     ((e.update t1 ldr).update t2 ldr).state_timer = t2 ∧
     ((e.update t1 ldr).update t2 ldr).facing = e.facing ∧
     ((e.update t1 ldr).update t2 ldr).x =
       (e.update t1 ldr).x +
       (if e.movement_type = "horizontal" then
          (if e.facing = "right" then 1 else -1) else 0) * TILE_SIZE ∧
     ((e.update t1 ldr).update t2 ldr).y =
       (e.update t1 ldr).y +
       (if e.movement_type = "horizontal" then 0
        else (if e.facing = "right" then 1 else -1)) * TILE_SIZE) ∧
    ((((e.update t1 ldr).update t2 ldr).update t3
        ldr).state = "moving" ∧
     (((e.update t1 ldr).update t2 ldr).update t3
        ldr).blocks_moved = 0 ∧
     (((e.update t1 ldr).update t2 ldr).update t3
        ldr).facing =
       (if e.facing = "right" then "left" else "right") ∧
     (((e.update t1 ldr).update t2 ldr).update t3
        ldr).x = ((e.update t1 ldr).update t2 ldr).x ∧
     (((e.update t1 ldr).update t2 ldr).update t3
        ldr).y = ((e.update t1 ldr).update t2 ldr).y) := by
  have hc1 : ¬ (t1 - e.last_move < e.move_cooldown) := by
    rw [hcool]; exact not_lt.mpr h1
  have step1 : (e.update t1 ldr).state = "moving" ∧
      (e.update t1 ldr).blocks_moved = 1 ∧
      (e.update t1 ldr).facing = e.facing ∧
      (e.update t1 ldr).x = e.x +
        (if e.movement_type = "horizontal" then
           (if e.facing = "right" then 1 else -1) else 0) * TILE_SIZE ∧
      (e.update t1 ldr).y = e.y +
        (if e.movement_type = "horizontal" then 0
         else (if e.facing = "right" then 1 else -1)) * TILE_SIZE := by
    refine ⟨?_, ?_, ?_, ?_, ?_⟩ <;>
      simp [Enemy.update, Enemy.update_movement, hstate, hc1, hfree,
        hmoved, hblocks]
  have haux1 : (e.update t1 ldr).last_move = t1 ∧
      (e.update t1 ldr).move_cooldown = e.move_cooldown ∧
      (e.update t1 ldr).blocks = e.blocks ∧
      (e.update t1 ldr).movement_type = e.movement_type := by
    refine ⟨?_, ?_, ?_, ?_⟩ <;>
      simp [Enemy.update, Enemy.update_movement, hstate, hc1, hfree,
        hmoved, hblocks]
  obtain ⟨hs1, hb1, hf1, hx1, hy1⟩ := step1
  obtain ⟨hlm1, hmc1, hbl1, hmt1⟩ := haux1
  set e1 : Enemy := e.update t1 ldr with hE1
  have hc2 : ¬ (t2 - e1.last_move < e1.move_cooldown) := by
    rw [hlm1, hmc1, hcool]; exact not_lt.mpr h2
  have step2 : (e1.update t2 ldr).state = "idle" ∧
      (e1.update t2 ldr).blocks_moved = 2 ∧
      (e1.update t2 ldr).state_timer = t2 ∧
      (e1.update t2 ldr).facing = e.facing ∧
      (e1.update t2 ldr).x = e1.x +
        (if e.movement_type = "horizontal" then
           (if e.facing = "right" then 1 else -1) else 0) * TILE_SIZE ∧
      (e1.update t2 ldr).y = e1.y +
        (if e.movement_type = "horizontal" then 0
         else (if e.facing = "right" then 1 else -1)) * TILE_SIZE := by
    refine ⟨?_, ?_, ?_, ?_, ?_, ?_⟩ <;>
      simp [Enemy.update, Enemy.update_movement, hs1, hb1, hf1, hmt1,
        hbl1, hc2, hfree, hblocks]
  obtain ⟨hs2, hb2, ht2, hf2, hx2, hy2⟩ := step2
  set e2 : Enemy := e1.update t2 ldr with hE2
  have hc3 : t3 - e2.state_timer ≥ 3.0 := by rw [ht2]; exact h3
  refine ⟨⟨hs1, hb1, hf1, hx1, hy1⟩, ⟨hs2, hb2, ht2, hf2, hx2, hy2⟩,
    ?_, ?_, ?_, ?_, ?_⟩ <;>
    simp [Enemy.update, hs2, hf2, hc3]

/-- C4 witness: a concrete horizontal rat with `blocks = 2`, updated
at 0.3 s, 0.6 s and 3.6 s, steps to x = 16, idles after the second
step, and faces left when the idle phase expires. -/
theorem c4_enemy_patrol_witness :
    ((Enemy.init 0 0 "rat" "horizontal" 2 0).update 0.3 none).x = 16 ∧
    (((Enemy.init 0 0 "rat" "horizontal" 2 0).update 0.3 none).update 0.6
        none).state = "idle" ∧
    ((((Enemy.init 0 0 "rat" "horizontal" 2 0).update 0.3 none).update 0.6
        none).update 3.6 none).facing = "left" := by
  have h := c4_enemy_patrol (Enemy.init 0 0 "rat" "horizontal" 2 0) none
    0.3 0.6 3.6 (fun a b => rfl) rfl rfl rfl rfl
    (by norm_num [Enemy.init]) (by norm_num) (by norm_num)
  refine ⟨?_, h.2.1.1, ?_⟩
  · rw [h.1.2.2.2.1]
    decide
  · rw [h.2.2.2.2.1]
    decide

/-- A concrete two-object-free tile map whose `objects` layer holds
one `player` object, used by the C2 material. -/
def c2Tmx : TmxData :=
  { width := 2
    height := 2
    tilewidth := 16
    tileheight := 16
    layers := [TmxLayer.objectGroup "objects"
      [{ name := some "player", x := 0, y := 0, width := 16, height := 16,
         properties := [] }]]
    tileFrames := fun _ => none
    tileImage := fun _ => false }

/-- A concrete loader state holding a live player from a previous
level, used by the C2 material. -/
def c2State : LevelLoader :=
  { sampleLoader with player := some (Player.init 0 0 0),
                      objects := [Entity.playerEnt (Player.init 0 0 0)] }

/-- A load environment whose map resolves but whose spritesheets all
fail to load, used by the C2 counterexample. -/
def c2Env : LoadEnv :=
  { now := 0, loadMap := fun _ => some c2Tmx, imageOk := fun _ => false }

/-- C2 counterexample: when the map resolves but the player
spritesheet does not, `load_current_level` returns false, yet the
loader state is NOT what it was before the attempt: the objects pass
had already cleared the player reference (and `tmx_data` was already
replaced), and the aborting exception leaves those mutations in
place. -/
theorem c2_counterexample :
    (load_current_level c2State c2Env).1 = false ∧
    c2State.player.isSome = true ∧
    (load_current_level c2State c2Env).2.player.isSome = false ∧
    c2State.tmx_data.isSome = false ∧
    (load_current_level c2State c2Env).2.tmx_data.isSome = true := by
  decide

/-- C2 amended: a failed load returns false without raising, and when
the map itself cannot be resolved — the exception fires before any
assignment — the loader state is exactly what it was before; but a
failure later in the pipeline (a spritesheet referenced by a spawned
entity) keeps the mutations of the steps already executed. -/
theorem c2_map_failure_preserves_state (st : LevelLoader) (env : LoadEnv)
    (hmap : env.loadMap
      (st.level_sequence.getD st.current_level_index "") = none) :
    load_current_level st env = (false, st) := by
  unfold load_current_level
  split
  · rfl
  · rw [hmap]

/-- C2 witness: on a concrete environment whose map file is missing,
the load fails and the loader state is returned untouched. -/
theorem c2_map_failure_preserves_state_witness :
    load_current_level c2State
      { now := 0, loadMap := fun _ => none, imageOk := fun _ => true } =
      (false, c2State) :=
  c2_map_failure_preserves_state c2State
    { now := 0, loadMap := fun _ => none, imageOk := fun _ => true } rfl
